import Mathlib

/-!
Shallow embedding of the scheme status and forecast computation of the
JJM O&M tracker (src/app.py).  Numeric REAL columns are modelled as `ℚ`,
INTEGER columns as `ℤ`/`ℕ`, nullable columns as `Option`, dates and
timestamps as abstract day numbers.  Tables are lists of rows.
-/

namespace JJM

/-- A row of the `schemes` table (src/app.py, init_database). -/
structure Scheme where
  scheme_id : String
  district_id : String
  sr_no : ℤ
  block : String
  agency : String
  scheme_name : String
  has_tw2 : Bool
  agency_submitted_date : Option ℕ
  tpia_verified_date : Option ℕ
  ee_verified_date : Option ℕ
deriving DecidableEq, Repr

/-- A row of the `components` table. -/
structure Component where
  component_id : ℕ
  component_name : String
  component_group : String
  site_type : String
  entry_type : String
  unit : Option String
deriving DecidableEq, Repr

/-- A row of the `progress` table; `target_value`, `achieved_value`,
`progress_percent` and `days_remaining` are nullable columns. -/
structure ProgressRow where
  district_id : String
  scheme_id : String
  component_id : ℕ
  target_value : Option ℚ
  achieved_value : Option ℚ
  progress_percent : Option ℚ
  days_remaining : Option ℤ
deriving DecidableEq, Repr

/-- A row of the `issues` table. -/
structure Issue where
  issue_id : ℕ
  district_id : String
  scheme_id : String
  component_id : ℕ
  issue_category : String
  issue_description : String
  severity : String
  reported_by : Option String
  expected_resolution_date : Option ℕ
  is_resolved : Bool
  reported_date : ℕ
deriving DecidableEq, Repr

/-- The relational store: the tables the core computation reads
(`delay_settings` rows are (setting_name, delay_days) pairs). -/
structure Database where
  schemes : List Scheme
  components : List Component
  progress : List ProgressRow
  issues : List Issue
  delay_settings : List (String × ℤ)
deriving DecidableEq, Repr

/-- The `user_data` dict fields read by get_scheme_data_with_issues;
`dict.get` of a possibly missing key is an `Option`. -/
structure UserData where
  role : Option String
  district_id : Option String
  assigned_block : Option String
  assigned_agency : Option String
deriving DecidableEq, Repr

/-- parse_assigned_blocks (src/app.py:306-310): comma-split, strip,
upper-case, dropping empty pieces; empty or "ALL" gives []. -/
def parse_assigned_blocks (assigned_block : String) : List String :=
  if assigned_block = "" ∨ assigned_block.toUpper = "ALL" then []
  else (assigned_block.splitOn ",").filterMap
    (fun b => if b.trim = "" then none else some b.trim.toUpper)

/-- The `district_id = ?` condition: comparison with a missing (NULL)
parameter matches no row. -/
def districtCondition (district_id : Option String) (s : Scheme) : Bool :=
  match district_id with
  | some d => s.district_id == d
  | none => false

/-- The `UPPER(block) IN (...)` condition, added only when a non-"ALL"
block assignment parses to a nonempty block list (src/app.py:442-447). -/
def blockCondition (assigned_block : Option String) (s : Scheme) : Bool :=
  match assigned_block with
  | none => true
  | some ab =>
    if ab = "" ∨ ab.toUpper = "ALL" then true
    else
      let blocks := parse_assigned_blocks ab
      if blocks.isEmpty then true else blocks.contains s.block.toUpper

/-- The `UPPER(agency) = ?` condition, added only for a non-"ALL"
assigned agency (src/app.py:450-452). -/
def agencyCondition (assigned_agency : Option String) (s : Scheme) : Bool :=
  match assigned_agency with
  | none => true
  | some aa =>
    if aa = "" ∨ aa.toUpper = "ALL" then true
    else s.agency.toUpper == aa.toUpper

/-- The WHERE clause built in get_scheme_data_with_issues
(src/app.py:433-471): Engineers filter by district, blocks and agency,
Managers by district and blocks, every other role sees all schemes. -/
def schemeFilter (u : UserData) (s : Scheme) : Bool :=
  if u.role == some "Engineer" then
    districtCondition u.district_id s && blockCondition u.assigned_block s
      && agencyCondition u.assigned_agency s
  else if u.role == some "Manager / Coordinator" then
    districtCondition u.district_id s && blockCondition u.assigned_block s
  else true

/-- `schemes_df`: the scheme rows visible to the user. -/
def visibleSchemes (db : Database) (u : UserData) : List Scheme :=
  db.schemes.filter (schemeFilter u)

/-- `districts_to_query` (src/app.py:478): the district ids of the
visible schemes (kept with duplicates; only membership is ever used). -/
def districtsToQuery (db : Database) (u : UserData) : List String :=
  (visibleSchemes db u).map Scheme.district_id

/-- get_delay_settings (src/app.py:407-419) composed with the
`.get(name, default)` reads at src/app.py:511-515: a stored value wins,
an absent setting falls back to the hard-coded default. -/
def delaySetting (settings : List (String × ℤ)) (name : String) (dflt : ℤ) : ℤ :=
  match settings.find? (fun kv => kv.1 == name) with
  | some kv => kv.2
  | none => dflt

/-- Entry type of a component id via `JOIN components c ON
p.component_id = c.component_id` (component_id is the primary key). -/
def entryTypeOf (components : List Component) (cid : ℕ) : Option String :=
  (components.find? (fun c => c.component_id == cid)).map Component.entry_type

/-- The SQL expression `CASE c.entry_type WHEN 'metric' THEN
(CAST(p.achieved_value AS REAL) / NULLIF(p.target_value, 0)) * 100 ELSE
p.progress_percent END` (src/app.py:484); `none` is SQL NULL, so a
metric row with target 0 (or a NULL operand) yields NULL. -/
def calcPercent (entry_type : String) (p : ProgressRow) : Option ℚ :=
  if entry_type = "metric" then
    match p.achieved_value, p.target_value with
    | some a, some t => if t = 0 then none else some (a / t * 100)
    | some _, none => none
    | none, _ => none
  else p.progress_percent

/-- The inner join of progress rows with their component's entry type;
rows whose component id has no catalog row are dropped. -/
def joinedProgress (components : List Component) (rows : List ProgressRow) :
    List (ProgressRow × String) :=
  rows.filterMap (fun p => (entryTypeOf components p.component_id).map (fun et => (p, et)))

/-- The progress rows of one scheme id restricted to the queried
districts (`WHERE p.district_id IN (...) GROUP BY p.scheme_id`). -/
def schemeProgressRows (db : Database) (districts : List String) (sid : String) :
    List ProgressRow :=
  db.progress.filter (fun p => p.scheme_id == sid && districts.contains p.district_id)

/-- The non-NULL calculated percentages feeding `AVG` for one scheme. -/
def schemeAvgInputs (db : Database) (districts : List String) (sid : String) : List ℚ :=
  (joinedProgress db.components (schemeProgressRows db districts sid)).filterMap
    (fun pe => calcPercent pe.2 pe.1)

/-- The non-NULL `days_remaining` values feeding `MAX` for one scheme. -/
def schemeDaysInputs (db : Database) (districts : List String) (sid : String) : List ℤ :=
  (joinedProgress db.components (schemeProgressRows db districts sid)).filterMap
    (fun pe => pe.1.days_remaining)

/-- SQL `AVG` over the non-NULL values followed by the pipeline's
`fillna(0)`: the mean, or 0 when no value survives. -/
def sqlAvg (l : List ℚ) : ℚ :=
  if l = [] then 0 else l.sum / l.length

/-- SQL `MAX` over the non-NULL values followed by `fillna(0)`. -/
def maxDaysList : List ℤ → ℤ
  | [] => 0
  | [x] => x
  | x :: y :: xs => max x (maxDaysList (y :: xs))

/-- Floor of a rational, written out on its numerator and denominator
so that it evaluates by kernel reduction. -/
def floorQ (q : ℚ) : ℤ := q.num.fdiv q.den

/-- Round half to even at integer resolution (numpy/pandas rounding). -/
def roundHalfEven (q : ℚ) : ℤ :=
  let f := floorQ q
  let r := q - f
  if r < 1/2 then f
  else if 1/2 < r then f + 1
  else if f % 2 = 0 then f else f + 1

/-- pandas `.round(1)`: round to one decimal place. -/
def round1 (q : ℚ) : ℚ :=
  (roundHalfEven (q * 10) : ℚ) / 10

/-- The issue rows of one scheme id restricted to the queried districts
(`WHERE district_id IN (...) GROUP BY scheme_id`, src/app.py:485). -/
def schemeIssueRows (db : Database) (districts : List String) (sid : String) :
    List Issue :=
  db.issues.filter (fun i => i.scheme_id == sid && districts.contains i.district_id)

/-- `COUNT(CASE WHEN is_resolved = 0 THEN 1 END)`: unresolved issues. -/
def openCount (db : Database) (districts : List String) (sid : String) : ℕ :=
  ((schemeIssueRows db districts sid).filter (fun i => !i.is_resolved)).length

/-- `COUNT(CASE WHEN severity = s AND is_resolved = 0 THEN 1 END)`. -/
def severityCount (db : Database) (districts : List String) (sid : String)
    (sev : String) : ℕ :=
  ((schemeIssueRows db districts sid).filter
    (fun i => i.severity == sev && !i.is_resolved)).length

/-- `COUNT(CASE WHEN issue_category = c AND is_resolved = 0 THEN 1 END)`. -/
def categoryCount (db : Database) (districts : List String) (sid : String)
    (cat : String) : ℕ :=
  ((schemeIssueRows db districts sid).filter
    (fun i => i.issue_category == cat && !i.is_resolved)).length

/-- `avg_progress` column: AVG, fillna(0), round(1) (src/app.py:507). -/
def avgProgressOf (db : Database) (districts : List String) (sid : String) : ℚ :=
  round1 (sqlAvg (schemeAvgInputs db districts sid))

/-- `max_days_remaining` column: MAX, fillna(0) (src/app.py:508). -/
def maxDaysOf (db : Database) (districts : List String) (sid : String) : ℤ :=
  maxDaysList (schemeDaysInputs db districts sid)

/-- `issue_delay_days` (src/app.py:510-516): Σ class-count × penalty. -/
def issueDelayDays (db : Database) (districts : List String) (sid : String) : ℤ :=
  (severityCount db districts sid "Critical" : ℤ)
      * delaySetting db.delay_settings "critical_issues" 14
    + (severityCount db districts sid "High" : ℤ)
      * delaySetting db.delay_settings "high_issues" 7
    + (categoryCount db districts sid "Material not delivered" : ℤ)
      * delaySetting db.delay_settings "material_issues" 10
    + (categoryCount db districts sid "Payment issues" : ℤ)
      * delaySetting db.delay_settings "payment_issues" 21
    + (categoryCount db districts sid "Contractor not working" : ℤ)
      * delaySetting db.delay_settings "contractor_issues" 14

/-- `risk_level` (src/app.py:520-523). -/
def riskLevel (critical open_issues : ℕ) : String :=
  if critical > 0 ∨ open_issues ≥ 3 then "High Risk"
  else if open_issues > 0 then "Medium Risk"
  else "Low Risk"

/-- `status` via np.select (src/app.py:525-527): first matching
condition wins, default 'Not Started'. -/
def statusOf (ee_verified_date : Option ℕ) (avg_progress : ℚ) : String :=
  if ee_verified_date.isSome then "In O&M"
  else if avg_progress ≥ 100 then "Ready for Inspection"
  else if avg_progress > 0 then "In Progress"
  else "Not Started"

/-- One output row of get_scheme_data_with_issues. -/
structure SchemeRecord where
  scheme : Scheme
  avg_progress : ℚ
  max_days_remaining : ℤ
  total_issues : ℕ
  open_issues : ℕ
  critical_issues : ℕ
  high_issues : ℕ
  material_issues : ℕ
  payment_issues : ℕ
  contractor_issues : ℕ
  issue_delay_days : ℤ
  adjusted_days_remaining : ℤ
  risk_level : String
  status : String
deriving DecidableEq, Repr

/-- The derived columns of one scheme row (src/app.py:484-527); the
aggregates are grouped and merged on scheme_id alone. -/
def schemeRecord (db : Database) (districts : List String) (s : Scheme) :
    SchemeRecord :=
  { scheme := s
    avg_progress := avgProgressOf db districts s.scheme_id
    max_days_remaining := maxDaysOf db districts s.scheme_id
    total_issues := (schemeIssueRows db districts s.scheme_id).length
    open_issues := openCount db districts s.scheme_id
    critical_issues := severityCount db districts s.scheme_id "Critical"
    high_issues := severityCount db districts s.scheme_id "High"
    material_issues := categoryCount db districts s.scheme_id "Material not delivered"
    payment_issues := categoryCount db districts s.scheme_id "Payment issues"
    contractor_issues := categoryCount db districts s.scheme_id "Contractor not working"
    issue_delay_days := issueDelayDays db districts s.scheme_id
    adjusted_days_remaining :=
      maxDaysOf db districts s.scheme_id + issueDelayDays db districts s.scheme_id
    risk_level :=
      riskLevel (severityCount db districts s.scheme_id "Critical")
        (openCount db districts s.scheme_id)
    status := statusOf s.ee_verified_date (avgProgressOf db districts s.scheme_id) }

/-- get_scheme_data_with_issues (src/app.py:421-529): the visible
schemes with their derived columns. -/
def get_scheme_data_with_issues (db : Database) (u : UserData) :
    List SchemeRecord :=
  (visibleSchemes db u).map (schemeRecord db (districtsToQuery db u))

/-- The per-entry progress display for a metric component
(src/app.py:881): `(achieved / target * 100) if target > 0 else 0`. -/
def progressValDisplay (target achieved : ℚ) : ℚ :=
  if target > 0 then achieved / target * 100 else 0

/-- One row of the forecast table of show_analytics; timestamps are
modelled as day numbers, `timedelta(days=d)` as addition. -/
structure ForecastRow where
  scheme_rec : SchemeRecord
  physical_completion_day : ℤ
  forecasted_om_day : ℤ
deriving DecidableEq, Repr

/-- The default of the "Verification Buffer (days)" input
(src/app.py:953): operator-supplied in 0..60, default 20. -/
def verificationBufferDefault : ℤ := 20

/-- The forecast rows of show_analytics (src/app.py:957-962): keep the
schemes whose status is 'In Progress' or 'Ready for Inspection', then
project completion and O&M dates. -/
def forecastRows (df : List SchemeRecord) (now buffer : ℤ) : List ForecastRow :=
  (df.filter (fun r => r.status == "In Progress" || r.status == "Ready for Inspection")).map
    (fun r =>
      { scheme_rec := r
        physical_completion_day := now + r.adjusted_days_remaining
        forecasted_om_day := now + r.adjusted_days_remaining + buffer })

/-- The problem-scheme condition of show_problem_schemes
(src/app.py:1262-1268). -/
def isProblemScheme (r : SchemeRecord) : Bool :=
  (decide (r.avg_progress ≥ 80) && decide (r.adjusted_days_remaining > 60))
    || (decide (r.avg_progress ≥ 60) && decide (r.adjusted_days_remaining > 90))
    || decide (r.adjusted_days_remaining > 120)
    || decide (r.critical_issues > 0)
    || decide (r.open_issues ≥ 3)

/-- `problem_schemes = df[...]` (src/app.py:1262-1268). -/
def problemSchemes (df : List SchemeRecord) : List SchemeRecord :=
  df.filter isProblemScheme

/-- The row written by the metric-branch `INSERT OR REPLACE INTO
progress` (src/app.py:911): progress_percent is left NULL. -/
def metricRow (d s : String) (c : ℕ) (target achieved : ℚ) (days : ℤ) :
    ProgressRow :=
  { district_id := d, scheme_id := s, component_id := c,
    target_value := some target, achieved_value := some achieved,
    progress_percent := none, days_remaining := some days }

/-- The row written by the task-branch `INSERT OR REPLACE INTO
progress` (src/app.py:914): target and achieved are left NULL. -/
def taskRow (d s : String) (c : ℕ) (percent : ℚ) (days : ℤ) : ProgressRow :=
  { district_id := d, scheme_id := s, component_id := c,
    target_value := none, achieved_value := none,
    progress_percent := some percent, days_remaining := some days }

/-- `INSERT OR REPLACE` under `UNIQUE(district_id, scheme_id,
component_id)`: the conflicting row is deleted and the new row stored. -/
def upsertProgress (store : List ProgressRow) (p : ProgressRow) :
    List ProgressRow :=
  store.filter (fun q => !(q.district_id == p.district_id
    && q.scheme_id == p.scheme_id && q.component_id == p.component_id)) ++ [p]

/-- Re-reading the entry of one (district, scheme, component):
`SELECT * FROM progress WHERE scheme_id = ? AND district_id = ?`
followed by the component_id filter (src/app.py:853, 871). -/
def readProgress (store : List ProgressRow) (d s : String) (c : ℕ) :
    Option ProgressRow :=
  store.find? (fun q => q.district_id == d && q.scheme_id == s && q.component_id == c)

/-- `UPDATE issues SET is_resolved = 1 WHERE issue_id = ?`
(src/app.py:1184). -/
def resolveIssue (issues : List Issue) (iid : ℕ) : List Issue :=
  issues.map (fun i => if i.issue_id == iid then { i with is_resolved := true } else i)

/-- `INSERT INTO issues (...)` (src/app.py:920): a fresh row appended
with `is_resolved` at its schema default 0. -/
def reportIssue (issues : List Issue) (iid : ℕ) (d s : String) (c : ℕ)
    (cat desc sev : String) (rep : Option String) (exp : Option ℕ)
    (rdate : ℕ) : List Issue :=
  issues ++ [{ issue_id := iid, district_id := d, scheme_id := s,
               component_id := c, issue_category := cat,
               issue_description := desc, severity := sev,
               reported_by := rep, expected_resolution_date := exp,
               is_resolved := false, reported_date := rdate }]

/-- A Gregorian calendar date. -/
structure Date where
  year : ℕ
  month : ℕ
  day : ℕ
deriving DecidableEq, Repr

/-- Gregorian leap-year rule. -/
def isLeap (y : ℕ) : Bool :=
  y % 4 == 0 && (y % 100 != 0 || y % 400 == 0)

/-- Length of a month. -/
def daysInMonth (y m : ℕ) : ℕ :=
  if m == 2 then (if isLeap y then 29 else 28)
  else if m == 4 || m == 6 || m == 9 || m == 11 then 30
  else 31

/-- Days in the year before the first of month m. -/
def daysBeforeMonth (y m : ℕ) : ℕ :=
  (List.range (m - 1)).foldl (fun acc i => acc + daysInMonth y (i + 1)) 0

/-- Day number of a Gregorian date (rata die), the day-count scale on
which Python's `date + timedelta(days=n)` is addition by `n`. -/
def rataDie (dt : Date) : ℤ :=
  ((365 * (dt.year - 1) + (dt.year - 1) / 4 + (dt.year - 1) / 400
      + daysBeforeMonth dt.year dt.month + dt.day : ℕ) : ℤ)
    - (((dt.year - 1) / 100 : ℤ))

unseal Rat.add Rat.mul Rat.inv Rat.sub Rat.ofScientific

/-! Concrete fixtures used by the closed evaluations below. -/

/-- A scheme row fixture. -/
def sampleScheme (sid did : String) (ee : Option ℕ) : Scheme :=
  { scheme_id := sid, district_id := did, sr_no := 1, block := "BLK",
    agency := "AG", scheme_name := sid, has_tw2 := false,
    agency_submitted_date := none, tpia_verified_date := none,
    ee_verified_date := ee }

/-- A two-component catalog fixture: component 1 is a metric entry,
component 2 a task entry (names from load_default_components). -/
def catalog : List Component :=
  [⟨1, "Distribution Line", "Distribution Line", "main", "metric", some "Km"⟩,
   ⟨2, "Grouting of FHTC", "Distribution Line", "main", "task", some "%"⟩]

/-- A Corporate user: sees every scheme. -/
def uCorp : UserData := ⟨some "Corporate", none, none, none⟩

/-! Helper lemmas. -/

theorem calcPercent_target_zero (p : ProgressRow) (hp : p.target_value = some 0) :
    calcPercent "metric" p = none := by
  cases ha : p.achieved_value <;> simp [calcPercent, hp, ha]

theorem round1_zero : round1 0 = 0 := by decide

theorem sqlAvg_nil : sqlAvg [] = 0 := rfl

/-- Inserting a progress row whose calculated percentage is NULL leaves
the AVG input list of every scheme unchanged. -/
theorem schemeAvgInputs_cons_null (db : Database) (districts : List String)
    (sid : String) (p : ProgressRow) (hp : p.target_value = some 0)
    (het : entryTypeOf db.components p.component_id = some "metric") :
    schemeAvgInputs { db with progress := p :: db.progress } districts sid
      = schemeAvgInputs db districts sid := by
  unfold schemeAvgInputs schemeProgressRows joinedProgress
  by_cases hf : p.scheme_id = sid ∧ p.district_id ∈ districts
  · simp [List.filter_cons, hf, List.filterMap_cons, het,
      calcPercent_target_zero p hp]
  · simp [List.filter_cons, hf]

theorem find_after_upsert (store : List ProgressRow) (p : ProgressRow) :
    readProgress (upsertProgress store p) p.district_id p.scheme_id p.component_id
      = some p := by
  unfold readProgress upsertProgress
  induction store with
  | nil =>
    rw [List.filter_nil, List.nil_append]
    exact List.find?_cons_of_pos [] (by simp)
  | cons q t ih =>
    by_cases hk : (q.district_id == p.district_id && q.scheme_id == p.scheme_id
        && q.component_id == p.component_id) = true
    · rw [List.filter_cons_of_neg (by simp [hk])]
      exact ih
    · rw [List.filter_cons_of_pos (by simp [hk]), List.cons_append,
        List.find?_cons_of_neg _ (by simp [hk])]
      exact ih

theorem filter_not_filter {α : Type} (l : List α) (f : α → Bool) :
    (l.filter (fun x => !(f x))).filter f = [] := by
  induction l with
  | nil => rfl
  | cons a t ih =>
    cases h : f a <;> simp [List.filter_cons, h, ih]

/-! The claims. -/

/-- Scheme S1 in district D1 with a zero-target metric entry (achieved
5) on component 1 and a 50% task entry on component 2. -/
def dbC1 : Database :=
  { schemes := [sampleScheme "S1" "D1" none]
    components := catalog
    progress := [⟨"D1", "S1", 1, some 0, some 5, none, some 10⟩,
                 ⟨"D1", "S1", 2, none, none, some 50, some 5⟩]
    issues := []
    delay_settings := [] }

/-- Claim C1 is false on the code: with a zero-target metric entry
(per-entry percent 0) and a 50% task entry, the claim's mean over all
entries would be (0 + 50) / 2 = 25, but the pipeline computes
avg_progress = 50, because the SQL CASE yields NULL for the zero-target
entry and AVG skips NULL rather than counting it as 0. -/
theorem claim_C1_counterexample :
    (get_scheme_data_with_issues dbC1 uCorp).map SchemeRecord.avg_progress = [50]
      ∧ ¬((50 : ℚ) = (progressValDisplay 0 5 + 50) / 2) := by
  decide

/-- Claim C1 (amended): a metric entry with target = 0 has per-entry
calculated percent 0 on the entry form (no division error), and its SQL
calculated percentage is NULL, so the scheme's avg_progress is the mean
of only the non-NULL percentages: adding a zero-target metric entry
leaves every scheme's avg_progress unchanged (it is excluded from the
mean), rather than contributing 0 to it. -/
theorem claim_C1 :
    (∀ a : ℚ, progressValDisplay 0 a = 0)
      ∧ (∀ p : ProgressRow, p.target_value = some 0 →
          calcPercent "metric" p = none)
      ∧ (∀ (db : Database) (districts : List String) (s : Scheme)
          (p : ProgressRow), p.target_value = some 0 →
          entryTypeOf db.components p.component_id = some "metric" →
          (schemeRecord { db with progress := p :: db.progress } districts s).avg_progress
            = (schemeRecord db districts s).avg_progress) := by
  refine ⟨?_, ?_, ?_⟩
  · intro a
    simp [progressValDisplay]
  · intro p hp
    exact calcPercent_target_zero p hp
  · intro db districts s p hp het
    simp [schemeRecord, avgProgressOf,
      schemeAvgInputs_cons_null db districts s.scheme_id p hp het]

/-- Witness for claim_C1 at concrete inputs. -/
theorem claim_C1_witness :
    progressValDisplay 0 5 = 0
      ∧ (metricRow "D1" "S1" 1 0 5 10).target_value = some 0
      ∧ calcPercent "metric" (metricRow "D1" "S1" 1 0 5 10) = none
      ∧ entryTypeOf dbC1.components 1 = some "metric"
      ∧ (schemeRecord { dbC1 with
            progress := metricRow "D1" "S1" 1 0 5 10 :: dbC1.progress }
          ["D1"] (sampleScheme "S1" "D1" none)).avg_progress
          = (schemeRecord dbC1 ["D1"] (sampleScheme "S1" "D1" none)).avg_progress :=
  ⟨claim_C1.1 5, rfl, claim_C1.2.1 _ rfl, by decide,
    claim_C1.2.2 dbC1 ["D1"] (sampleScheme "S1" "D1" none)
      (metricRow "D1" "S1" 1 0 5 10) rfl (by decide)⟩

/-- Scheme S1 with a single unresolved issue that is both Critical
severity and 'Material not delivered' category; no stored delay
settings, so the defaults apply. -/
def dbC2 : Database :=
  { schemes := [sampleScheme "S1" "D1" none]
    components := catalog
    progress := []
    issues := [⟨1, "D1", "S1", 1, "Material not delivered", "d", "Critical",
                some "R", none, false, 0⟩]
    delay_settings := [] }

/-- Claim C2: issue_delay_days is the sum over the five classes of the
unresolved-count times the configured penalty (an absent setting falls
back to the defaults 14, 7, 10, 21, 14); an issue matching both a
severity class and a category class contributes to both terms (the
single Critical + material issue yields 14 + 10 = 24); and
adjusted_days_remaining = max_days_remaining + issue_delay_days. -/
theorem claim_C2 :
    (∀ (db : Database) (districts : List String) (s : Scheme),
      (schemeRecord db districts s).issue_delay_days =
        ((db.issues.filter (fun i => (i.severity == "Critical" && !i.is_resolved)
            && (i.scheme_id == s.scheme_id && districts.contains i.district_id))).length : ℤ)
            * delaySetting db.delay_settings "critical_issues" 14
          + ((db.issues.filter (fun i => (i.severity == "High" && !i.is_resolved)
              && (i.scheme_id == s.scheme_id && districts.contains i.district_id))).length : ℤ)
            * delaySetting db.delay_settings "high_issues" 7
          + ((db.issues.filter (fun i => (i.issue_category == "Material not delivered" && !i.is_resolved)
              && (i.scheme_id == s.scheme_id && districts.contains i.district_id))).length : ℤ)
            * delaySetting db.delay_settings "material_issues" 10
          + ((db.issues.filter (fun i => (i.issue_category == "Payment issues" && !i.is_resolved)
              && (i.scheme_id == s.scheme_id && districts.contains i.district_id))).length : ℤ)
            * delaySetting db.delay_settings "payment_issues" 21
          + ((db.issues.filter (fun i => (i.issue_category == "Contractor not working" && !i.is_resolved)
              && (i.scheme_id == s.scheme_id && districts.contains i.district_id))).length : ℤ)
            * delaySetting db.delay_settings "contractor_issues" 14)
      ∧ (∀ (db : Database) (districts : List String) (s : Scheme),
          (schemeRecord db districts s).adjusted_days_remaining =
            (schemeRecord db districts s).max_days_remaining
              + (schemeRecord db districts s).issue_delay_days)
      ∧ (∀ (name : String) (d : ℤ), delaySetting [] name d = d)
      ∧ (get_scheme_data_with_issues dbC2 uCorp).map SchemeRecord.issue_delay_days = [24] := by
  refine ⟨?_, ?_, ?_, ?_⟩
  · intro db districts s
    simp [schemeRecord, issueDelayDays, severityCount, categoryCount,
      schemeIssueRows, List.filter_filter]
  · intro db districts s
    rfl
  · intro name d
    rfl
  · decide

/-- Scheme with the engineer-verification date set and no progress
entries at all (avg_progress 0). -/
def dbC3 : Database :=
  { schemes := [sampleScheme "S1" "D1" (some 739000)]
    components := catalog
    progress := []
    issues := []
    delay_settings := [] }

/-- Claim C3: status is decided by the first matching rule of: 'In O&M'
when the engineer-verification date is set, else 'Ready for Inspection'
when avg_progress ≥ 100, else 'In Progress' when avg_progress > 0, else
'Not Started'; in particular a scheme with the verification date set
and avg_progress = 0 is 'In O&M', not 'Not Started'. -/
theorem claim_C3 :
    (∀ (db : Database) (districts : List String) (s : Scheme),
      (schemeRecord db districts s).status =
        (if s.ee_verified_date.isSome then "In O&M"
         else if (schemeRecord db districts s).avg_progress ≥ 100 then "Ready for Inspection"
         else if (schemeRecord db districts s).avg_progress > 0 then "In Progress"
         else "Not Started"))
      ∧ (∀ (db : Database) (districts : List String) (s : Scheme),
          s.ee_verified_date.isSome = true →
          (schemeRecord db districts s).status = "In O&M")
      ∧ (get_scheme_data_with_issues dbC3 uCorp).map
          (fun r => (r.status, r.avg_progress)) = [("In O&M", 0)] := by
  refine ⟨?_, ?_, ?_⟩
  · intro db districts s
    rfl
  · intro db districts s h
    simp [schemeRecord, statusOf, h]
  · decide

/-- Witness for claim_C3 at concrete inputs. -/
theorem claim_C3_witness :
    (sampleScheme "S1" "D1" (some 739000)).ee_verified_date.isSome = true
      ∧ (schemeRecord dbC3 ["D1"] (sampleScheme "S1" "D1" (some 739000))).status
          = "In O&M" :=
  ⟨rfl, claim_C3.2.1 dbC3 ["D1"] (sampleScheme "S1" "D1" (some 739000)) rfl⟩

/-- One unresolved Critical issue and nothing else. -/
def dbC4a : Database :=
  { schemes := [sampleScheme "S1" "D1" none], components := catalog,
    progress := [],
    issues := [⟨1, "D1", "S1", 1, "Other", "d", "Critical", none, none, false, 0⟩],
    delay_settings := [] }

/-- Two unresolved non-critical issues. -/
def dbC4b : Database :=
  { schemes := [sampleScheme "S1" "D1" none], components := catalog,
    progress := [],
    issues := [⟨1, "D1", "S1", 1, "Other", "d", "Medium", none, none, false, 0⟩,
               ⟨2, "D1", "S1", 2, "Other", "d", "Low", none, none, false, 0⟩],
    delay_settings := [] }

/-- One Critical issue, already resolved: zero unresolved issues. -/
def dbC4c : Database :=
  { schemes := [sampleScheme "S1" "D1" none], components := catalog,
    progress := [],
    issues := [⟨1, "D1", "S1", 1, "Other", "d", "Critical", none, none, true, 0⟩],
    delay_settings := [] }

/-- Claim C4: risk is 'High Risk' when the unresolved critical count is
positive or the unresolved open count is at least 3, else 'Medium Risk'
when the open count is positive, else 'Low Risk'; one unresolved
critical issue alone gives High, two unresolved non-critical issues
give Medium, zero unresolved issues give Low. -/
theorem claim_C4 :
    (∀ (db : Database) (districts : List String) (s : Scheme),
      (schemeRecord db districts s).risk_level =
        (if (schemeRecord db districts s).critical_issues > 0
            ∨ (schemeRecord db districts s).open_issues ≥ 3 then "High Risk"
         else if (schemeRecord db districts s).open_issues > 0 then "Medium Risk"
         else "Low Risk"))
      ∧ (get_scheme_data_with_issues dbC4a uCorp).map
          (fun r => (r.risk_level, r.critical_issues, r.open_issues))
          = [("High Risk", 1, 1)]
      ∧ (get_scheme_data_with_issues dbC4b uCorp).map
          (fun r => (r.risk_level, r.critical_issues, r.open_issues))
          = [("Medium Risk", 0, 2)]
      ∧ (get_scheme_data_with_issues dbC4c uCorp).map
          (fun r => (r.risk_level, r.critical_issues, r.open_issues))
          = [("Low Risk", 0, 0)] := by
  refine ⟨?_, ?_, ?_, ?_⟩
  · intro db districts s
    rfl
  · decide
  · decide
  · decide

/-- Three schemes: S5 has a 50% task entry with 30 days remaining plus
one unresolved High and one unresolved Critical issue (delay 21 days,
adjusted 51); S6 has no data ('Not Started'); S7 is engineer-verified
('In O&M'). -/
def dbC5 : Database :=
  { schemes := [sampleScheme "S5" "D1" none, sampleScheme "S6" "D1" none,
                sampleScheme "S7" "D1" (some 739000)]
    components := catalog
    progress := [⟨"D1", "S5", 2, none, none, some 50, some 30⟩]
    issues := [⟨1, "D1", "S5", 1, "Other", "d", "High", none, none, false, 0⟩,
               ⟨2, "D1", "S5", 1, "Other", "d", "Critical", none, none, false, 0⟩]
    delay_settings := [] }

/-- The forecast row the pipeline produces for S5 from dbC5 with now =
2024-01-01 and the default 20-day buffer. -/
def fr5 : ForecastRow :=
  { scheme_rec := schemeRecord dbC5 (districtsToQuery dbC5 uCorp)
      (sampleScheme "S5" "D1" none)
    physical_completion_day := rataDie ⟨2024, 2, 21⟩
    forecasted_om_day := rataDie ⟨2024, 3, 12⟩ }

/-- Claim C5: the forecast contains exactly the schemes whose status is
'In Progress' or 'Ready for Inspection'; each forecast row satisfies
physical_completion = now + adjusted_days_remaining and forecasted_om =
physical_completion + buffer; the buffer default is 20; with
adjusted 51, buffer 20, now 2024-01-01 the dates are 2024-02-21 and
2024-03-12. -/
theorem claim_C5 :
    (∀ (df : List SchemeRecord) (now buffer : ℤ),
      (forecastRows df now buffer).map ForecastRow.scheme_rec
        = df.filter (fun r => r.status == "In Progress"
            || r.status == "Ready for Inspection"))
      ∧ (∀ (df : List SchemeRecord) (now buffer : ℤ) (fr : ForecastRow),
          fr ∈ forecastRows df now buffer →
          (fr.scheme_rec.status = "In Progress"
              ∨ fr.scheme_rec.status = "Ready for Inspection")
            ∧ fr.physical_completion_day
                = now + fr.scheme_rec.adjusted_days_remaining
            ∧ fr.forecasted_om_day = fr.physical_completion_day + buffer)
      ∧ verificationBufferDefault = 20
      ∧ (forecastRows (get_scheme_data_with_issues dbC5 uCorp)
            (rataDie ⟨2024, 1, 1⟩) verificationBufferDefault).map
          (fun fr => (fr.scheme_rec.scheme.scheme_id,
            fr.scheme_rec.adjusted_days_remaining,
            fr.physical_completion_day, fr.forecasted_om_day))
          = [("S5", 51, rataDie ⟨2024, 2, 21⟩, rataDie ⟨2024, 3, 12⟩)] := by
  refine ⟨?_, ?_, rfl, ?_⟩
  · intro df now buffer
    simp [forecastRows, List.map_map, Function.comp_def]
  · intro df now buffer fr hfr
    rcases List.mem_map.mp hfr with ⟨r, hr, rfl⟩
    have hst := (List.mem_filter.mp hr).2
    simp only [Bool.or_eq_true, beq_iff_eq] at hst
    exact ⟨hst, rfl, rfl⟩
  · decide

/-- Witness for claim_C5 at concrete inputs. -/
theorem claim_C5_witness :
    fr5 ∈ forecastRows (get_scheme_data_with_issues dbC5 uCorp)
        (rataDie ⟨2024, 1, 1⟩) verificationBufferDefault
      ∧ ((fr5.scheme_rec.status = "In Progress"
            ∨ fr5.scheme_rec.status = "Ready for Inspection")
          ∧ fr5.physical_completion_day
              = rataDie ⟨2024, 1, 1⟩ + fr5.scheme_rec.adjusted_days_remaining
          ∧ fr5.forecasted_om_day
              = fr5.physical_completion_day + verificationBufferDefault) :=
  ⟨by decide,
    claim_C5.2.1 (get_scheme_data_with_issues dbC5 uCorp)
      (rataDie ⟨2024, 1, 1⟩) verificationBufferDefault fr5 (by decide)⟩

/-- Scheme P1 has adjusted_days_remaining 130 (> 120, flagged); scheme
P2 has adjusted 10, avg 50 and no issues (not flagged). -/
def dbC6 : Database :=
  { schemes := [sampleScheme "P1" "D1" none, sampleScheme "P2" "D1" none]
    components := catalog
    progress := [⟨"D1", "P1", 2, none, none, some 10, some 130⟩,
                 ⟨"D1", "P2", 2, none, none, some 50, some 10⟩]
    issues := []
    delay_settings := [] }

/-- Claim C6: a scheme is flagged as a problem scheme exactly when one
of the five clauses holds: (avg ≥ 80 and adjusted > 60), (avg ≥ 60 and
adjusted > 90), adjusted > 120, unresolved critical count > 0, or
unresolved open count ≥ 3. -/
theorem claim_C6 :
    (∀ (df : List SchemeRecord) (r : SchemeRecord),
      r ∈ problemSchemes df ↔ r ∈ df ∧
        ((r.avg_progress ≥ 80 ∧ r.adjusted_days_remaining > 60)
          ∨ (r.avg_progress ≥ 60 ∧ r.adjusted_days_remaining > 90)
          ∨ r.adjusted_days_remaining > 120
          ∨ r.critical_issues > 0
          ∨ r.open_issues ≥ 3))
      ∧ (problemSchemes (get_scheme_data_with_issues dbC6 uCorp)).map
          (fun r => r.scheme.scheme_id) = ["P1"] := by
  constructor
  · intro df r
    simp only [problemSchemes, List.mem_filter, isProblemScheme,
      Bool.or_eq_true, Bool.and_eq_true, decide_eq_true_eq]
    tauto
  · decide

/-- Claim C7: a scheme with no progress rows (over the queried
districts) gets the defined values avg_progress = 0 and
max_days_remaining = 0 from the empty aggregation. -/
theorem claim_C7 (db : Database) (districts : List String) (s : Scheme)
    (h : schemeProgressRows db districts s.scheme_id = []) :
    (schemeRecord db districts s).avg_progress = 0
      ∧ (schemeRecord db districts s).max_days_remaining = 0 := by
  constructor
  · simp [schemeRecord, avgProgressOf, schemeAvgInputs, joinedProgress, h,
      sqlAvg_nil, round1_zero]
  · simp [schemeRecord, maxDaysOf, schemeDaysInputs, joinedProgress, h,
      maxDaysList]

/-- A scheme with an empty progress table. -/
def dbC7 : Database :=
  { schemes := [sampleScheme "S1" "D1" none], components := catalog,
    progress := [], issues := [], delay_settings := [] }

/-- Witness for claim_C7 at concrete inputs. -/
theorem claim_C7_witness :
    schemeProgressRows dbC7 ["D1"] (sampleScheme "S1" "D1" none).scheme_id = []
      ∧ ((schemeRecord dbC7 ["D1"] (sampleScheme "S1" "D1" none)).avg_progress = 0
          ∧ (schemeRecord dbC7 ["D1"] (sampleScheme "S1" "D1" none)).max_days_remaining = 0) :=
  ⟨rfl, claim_C7 dbC7 ["D1"] (sampleScheme "S1" "D1" none) rfl⟩

/-- Claim C8: saving a progress entry then re-reading the same
(district, scheme, component) returns exactly the last-written row, for
both the metric and the task form of the save; a second save for the
same key wins over the first; and after any save the store holds
exactly one row for that key. -/
theorem claim_C8 :
    (∀ (store : List ProgressRow) (d s : String) (c : ℕ) (t a : ℚ) (dy : ℤ),
      readProgress (upsertProgress store (metricRow d s c t a dy)) d s c
        = some (metricRow d s c t a dy))
      ∧ (∀ (store : List ProgressRow) (d s : String) (c : ℕ) (pc : ℚ) (dy : ℤ),
          readProgress (upsertProgress store (taskRow d s c pc dy)) d s c
            = some (taskRow d s c pc dy))
      ∧ (∀ (store : List ProgressRow) (d s : String) (c : ℕ)
          (t a : ℚ) (dy : ℤ) (t2 a2 : ℚ) (dy2 : ℤ),
          readProgress (upsertProgress (upsertProgress store (metricRow d s c t a dy))
              (metricRow d s c t2 a2 dy2)) d s c
            = some (metricRow d s c t2 a2 dy2))
      ∧ (∀ (store : List ProgressRow) (p : ProgressRow),
          (upsertProgress store p).filter (fun q => q.district_id == p.district_id
              && q.scheme_id == p.scheme_id && q.component_id == p.component_id)
            = [p]) := by
  refine ⟨?_, ?_, ?_, ?_⟩
  · intro store d s c t a dy
    exact find_after_upsert store (metricRow d s c t a dy)
  · intro store d s c pc dy
    exact find_after_upsert store (taskRow d s c pc dy)
  · intro store d s c t a dy t2 a2 dy2
    exact find_after_upsert _ (metricRow d s c t2 a2 dy2)
  · intro store p
    show ((store.filter _) ++ [p]).filter _ = [p]
    rw [List.filter_append,
      filter_not_filter store (fun q => q.district_id == p.district_id
        && q.scheme_id == p.scheme_id && q.component_id == p.component_id)]
    simp

/-- Claim C9: the per-scheme aggregates are grouped and merged back on
scheme_id alone, so two visible schemes sharing a scheme_id receive
identical aggregates, and each of their districts is among the queried
districts whose union of progress and issue rows feeds those
aggregates. -/
theorem claim_C9 (db : Database) (u : UserData) (s1 s2 : Scheme)
    (h1 : s1 ∈ visibleSchemes db u) (h2 : s2 ∈ visibleSchemes db u)
    (h3 : s1.scheme_id = s2.scheme_id) :
    ((schemeRecord db (districtsToQuery db u) s1).avg_progress,
        (schemeRecord db (districtsToQuery db u) s1).max_days_remaining,
        (schemeRecord db (districtsToQuery db u) s1).total_issues,
        (schemeRecord db (districtsToQuery db u) s1).open_issues,
        (schemeRecord db (districtsToQuery db u) s1).critical_issues,
        (schemeRecord db (districtsToQuery db u) s1).high_issues,
        (schemeRecord db (districtsToQuery db u) s1).material_issues,
        (schemeRecord db (districtsToQuery db u) s1).payment_issues,
        (schemeRecord db (districtsToQuery db u) s1).contractor_issues,
        (schemeRecord db (districtsToQuery db u) s1).issue_delay_days,
        (schemeRecord db (districtsToQuery db u) s1).adjusted_days_remaining,
        (schemeRecord db (districtsToQuery db u) s1).risk_level)
      = ((schemeRecord db (districtsToQuery db u) s2).avg_progress,
        (schemeRecord db (districtsToQuery db u) s2).max_days_remaining,
        (schemeRecord db (districtsToQuery db u) s2).total_issues,
        (schemeRecord db (districtsToQuery db u) s2).open_issues,
        (schemeRecord db (districtsToQuery db u) s2).critical_issues,
        (schemeRecord db (districtsToQuery db u) s2).high_issues,
        (schemeRecord db (districtsToQuery db u) s2).material_issues,
        (schemeRecord db (districtsToQuery db u) s2).payment_issues,
        (schemeRecord db (districtsToQuery db u) s2).contractor_issues,
        (schemeRecord db (districtsToQuery db u) s2).issue_delay_days,
        (schemeRecord db (districtsToQuery db u) s2).adjusted_days_remaining,
        (schemeRecord db (districtsToQuery db u) s2).risk_level)
      ∧ s1.district_id ∈ districtsToQuery db u
      ∧ s2.district_id ∈ districtsToQuery db u := by
  refine ⟨?_, ?_, ?_⟩
  · simp [schemeRecord, h3]
  · exact List.mem_map_of_mem Scheme.district_id h1
  · exact List.mem_map_of_mem Scheme.district_id h2

/-- Two districts D1 and D2 each hold a scheme with the same scheme_id
"S"; D1 has a 100% task entry, D2 a 0% task entry and one unresolved
High issue. -/
def dbC9 : Database :=
  { schemes := [sampleScheme "S" "D1" none, sampleScheme "S" "D2" none]
    components := catalog
    progress := [⟨"D1", "S", 2, none, none, some 100, some 3⟩,
                 ⟨"D2", "S", 2, none, none, some 0, some 9⟩]
    issues := [⟨1, "D2", "S", 1, "Payment issues", "d", "High", none, none, false, 0⟩]
    delay_settings := [] }

/-- Witness for claim_C9: both copies of "S" average the two districts'
entries to 50 and both absorb D2's issue delay. -/
theorem claim_C9_witness :
    sampleScheme "S" "D1" none ∈ visibleSchemes dbC9 uCorp
      ∧ sampleScheme "S" "D2" none ∈ visibleSchemes dbC9 uCorp
      ∧ (((schemeRecord dbC9 (districtsToQuery dbC9 uCorp) (sampleScheme "S" "D1" none)).avg_progress,
            (schemeRecord dbC9 (districtsToQuery dbC9 uCorp) (sampleScheme "S" "D1" none)).max_days_remaining,
            (schemeRecord dbC9 (districtsToQuery dbC9 uCorp) (sampleScheme "S" "D1" none)).total_issues,
            (schemeRecord dbC9 (districtsToQuery dbC9 uCorp) (sampleScheme "S" "D1" none)).open_issues,
            (schemeRecord dbC9 (districtsToQuery dbC9 uCorp) (sampleScheme "S" "D1" none)).critical_issues,
            (schemeRecord dbC9 (districtsToQuery dbC9 uCorp) (sampleScheme "S" "D1" none)).high_issues,
            (schemeRecord dbC9 (districtsToQuery dbC9 uCorp) (sampleScheme "S" "D1" none)).material_issues,
            (schemeRecord dbC9 (districtsToQuery dbC9 uCorp) (sampleScheme "S" "D1" none)).payment_issues,
            (schemeRecord dbC9 (districtsToQuery dbC9 uCorp) (sampleScheme "S" "D1" none)).contractor_issues,
            (schemeRecord dbC9 (districtsToQuery dbC9 uCorp) (sampleScheme "S" "D1" none)).issue_delay_days,
            (schemeRecord dbC9 (districtsToQuery dbC9 uCorp) (sampleScheme "S" "D1" none)).adjusted_days_remaining,
            (schemeRecord dbC9 (districtsToQuery dbC9 uCorp) (sampleScheme "S" "D1" none)).risk_level)
          = ((schemeRecord dbC9 (districtsToQuery dbC9 uCorp) (sampleScheme "S" "D2" none)).avg_progress,
            (schemeRecord dbC9 (districtsToQuery dbC9 uCorp) (sampleScheme "S" "D2" none)).max_days_remaining,
            (schemeRecord dbC9 (districtsToQuery dbC9 uCorp) (sampleScheme "S" "D2" none)).total_issues,
            (schemeRecord dbC9 (districtsToQuery dbC9 uCorp) (sampleScheme "S" "D2" none)).open_issues,
            (schemeRecord dbC9 (districtsToQuery dbC9 uCorp) (sampleScheme "S" "D2" none)).critical_issues,
            (schemeRecord dbC9 (districtsToQuery dbC9 uCorp) (sampleScheme "S" "D2" none)).high_issues,
            (schemeRecord dbC9 (districtsToQuery dbC9 uCorp) (sampleScheme "S" "D2" none)).material_issues,
            (schemeRecord dbC9 (districtsToQuery dbC9 uCorp) (sampleScheme "S" "D2" none)).payment_issues,
            (schemeRecord dbC9 (districtsToQuery dbC9 uCorp) (sampleScheme "S" "D2" none)).contractor_issues,
            (schemeRecord dbC9 (districtsToQuery dbC9 uCorp) (sampleScheme "S" "D2" none)).issue_delay_days,
            (schemeRecord dbC9 (districtsToQuery dbC9 uCorp) (sampleScheme "S" "D2" none)).adjusted_days_remaining,
            (schemeRecord dbC9 (districtsToQuery dbC9 uCorp) (sampleScheme "S" "D2" none)).risk_level)
          ∧ (sampleScheme "S" "D1" none).district_id ∈ districtsToQuery dbC9 uCorp
          ∧ (sampleScheme "S" "D2" none).district_id ∈ districtsToQuery dbC9 uCorp)
      ∧ (schemeRecord dbC9 (districtsToQuery dbC9 uCorp) (sampleScheme "S" "D1" none)).avg_progress = 50
      ∧ (schemeRecord dbC9 (districtsToQuery dbC9 uCorp) (sampleScheme "S" "D1" none)).issue_delay_days = 28 :=
  ⟨by decide, by decide,
    claim_C9 dbC9 uCorp (sampleScheme "S" "D1" none) (sampleScheme "S" "D2" none)
      (by decide) (by decide) rfl,
    by decide, by decide⟩

/-- Claim C10: resolving an issue keeps the list length, changes no
field of any row except that the matching row's is_resolved becomes
old-value OR id-match (so it is set to 1 on the matching issue, is
untouched elsewhere, and never reverts from 1 to 0); reporting an issue
leaves existing rows unchanged and appends a row with is_resolved = 0;
and the unresolved counts include only rows with is_resolved = 0. -/
theorem claim_C10 :
    (∀ (issues : List Issue) (iid : ℕ),
      (resolveIssue issues iid).length = issues.length)
      ∧ (∀ (issues : List Issue) (iid n : ℕ) (i j : Issue),
          issues[n]? = some i → (resolveIssue issues iid)[n]? = some j →
          j.issue_id = i.issue_id ∧ j.district_id = i.district_id
            ∧ j.scheme_id = i.scheme_id ∧ j.component_id = i.component_id
            ∧ j.issue_category = i.issue_category
            ∧ j.issue_description = i.issue_description
            ∧ j.severity = i.severity ∧ j.reported_by = i.reported_by
            ∧ j.expected_resolution_date = i.expected_resolution_date
            ∧ j.reported_date = i.reported_date
            ∧ j.is_resolved = (i.is_resolved || i.issue_id == iid))
      ∧ (∀ (issues : List Issue) (iid : ℕ) (d s : String) (c : ℕ)
          (cat desc sev : String) (rep : Option String) (ed : Option ℕ)
          (rdate n : ℕ), n < issues.length →
          (reportIssue issues iid d s c cat desc sev rep ed rdate)[n]? = issues[n]?)
      ∧ (∀ (issues : List Issue) (iid : ℕ) (d s : String) (c : ℕ)
          (cat desc sev : String) (rep : Option String) (ed : Option ℕ)
          (rdate : ℕ),
          (reportIssue issues iid d s c cat desc sev rep ed rdate)[issues.length]?
            = some ⟨iid, d, s, c, cat, desc, sev, rep, ed, false, rdate⟩)
      ∧ (∀ (db : Database) (districts : List String) (sid : String),
          openCount db districts sid
              = ((schemeIssueRows db districts sid).filter
                  (fun i => i.is_resolved == false)).length
            ∧ severityCount db districts sid "Critical"
              = ((schemeIssueRows db districts sid).filter
                  (fun i => i.severity == "Critical" && i.is_resolved == false)).length) := by
  refine ⟨?_, ?_, ?_, ?_, ?_⟩
  · intro issues iid
    simp [resolveIssue]
  · intro issues iid n i j hi hj
    rw [resolveIssue, List.getElem?_map, hi] at hj
    have hj' : (if i.issue_id == iid then { i with is_resolved := true } else i) = j := by
      simpa using hj
    subst hj'
    cases h : (i.issue_id == iid) <;> simp [h]
  · intro issues iid d s c cat desc sev rep ed rdate n hn
    rw [reportIssue]
    exact List.getElem?_append_left hn
  · intro issues iid d s c cat desc sev rep ed rdate
    rw [reportIssue]
    exact List.getElem?_concat_length issues _
  · intro db districts sid
    constructor
    · simp [openCount]
    · simp [severityCount]

/-- An unresolved High issue (id 1) and a resolved Low issue (id 2). -/
def iW : Issue := ⟨1, "D1", "S1", 1, "Other", "d", "High", none, none, false, 5⟩

/-- iW after resolution. -/
def jW : Issue := ⟨1, "D1", "S1", 1, "Other", "d", "High", none, none, true, 5⟩

/-- A two-row issue table fixture. -/
def issuesW : List Issue :=
  [iW, ⟨2, "D1", "S1", 2, "Other", "d2", "Low", none, none, true, 6⟩]

/-- Witness for claim_C10 at concrete inputs. -/
theorem claim_C10_witness :
    issuesW[0]? = some iW
      ∧ (resolveIssue issuesW 1)[0]? = some jW
      ∧ (jW.issue_id = iW.issue_id ∧ jW.district_id = iW.district_id
          ∧ jW.scheme_id = iW.scheme_id ∧ jW.component_id = iW.component_id
          ∧ jW.issue_category = iW.issue_category
          ∧ jW.issue_description = iW.issue_description
          ∧ jW.severity = iW.severity ∧ jW.reported_by = iW.reported_by
          ∧ jW.expected_resolution_date = iW.expected_resolution_date
          ∧ jW.reported_date = iW.reported_date
          ∧ jW.is_resolved = (iW.is_resolved || iW.issue_id == 1))
      ∧ 0 < issuesW.length
      ∧ (reportIssue issuesW 3 "D1" "S1" 2 "Other" "x" "Low" none none 7)[0]?
          = issuesW[0]? :=
  ⟨rfl, by decide,
    claim_C10.2.1 issuesW 1 0 iW jW rfl (by decide),
    by decide,
    claim_C10.2.2.1 issuesW 3 "D1" "S1" 2 "Other" "x" "Low" none none 7 0 (by decide)⟩

end JJM
